import Mathlib

/-!
Shallow embedding of the zimg C-linkage adapter (src/API/zimg2.cpp) and of
the spec-described point-resampling identity, for checking the spec claims.

Machine doubles are modelled as either NaN or an exact rational; the only
double operations the adapter performs are isnan tests, floor, and constant
assignment, all of which are exact in this model.  The debug-only assertion
macros (API_VERSION_ASSERT and friends) compile to no-ops in release builds
and are modelled as no-ops here; the version guards that the claims are
about are the explicit `if (version >= 2)` checks, which are modelled
faithfully.
-/

namespace Zimg2

/-- Model of a C `double` restricted to the operations the adapter uses:
NaN tests, floor, and exact constants. -/
inductive Fl where
  | nan : Fl
  | fin : ℚ → Fl
deriving DecidableEq, Repr

/-- std::isnan. -/
def Fl.isnan : Fl → Bool
  | .nan => true
  | .fin _ => false

/-- std::floor on a non-NaN value (NaN propagates, as in C). -/
def Fl.floor : Fl → Fl
  | .nan => .nan
  | .fin q => .fin (Int.floor q : ℤ)

/-- C truncating cast `(int)x` for a finite double (truncation toward zero). -/
def Fl.cint : Fl → ℤ
  | .nan => 0
  | .fin q => if q < 0 then -(Int.floor (-q)) else Int.floor q

/- External enum constants.  Modelled from the spec: the public header
zimg2.h is not part of the visible slice; the constants are modelled as
distinct integers following the AVUtil-style numbering the adapter's
translation tables key on.  No claim depends on the particular numerals,
only on their distinctness. -/

def ZIMG_API_VERSION : ℕ := 2

def ZIMG_PIXEL_BYTE : ℤ := 0
def ZIMG_PIXEL_WORD : ℤ := 1
def ZIMG_PIXEL_HALF : ℤ := 2
def ZIMG_PIXEL_FLOAT : ℤ := 3

def ZIMG_RANGE_LIMITED : ℤ := 0
def ZIMG_RANGE_FULL : ℤ := 1

def ZIMG_MATRIX_RGB : ℤ := 0
def ZIMG_MATRIX_709 : ℤ := 1
def ZIMG_MATRIX_470BG : ℤ := 5
def ZIMG_MATRIX_170M : ℤ := 6
def ZIMG_MATRIX_2020_NCL : ℤ := 9
def ZIMG_MATRIX_2020_CL : ℤ := 10

def ZIMG_TRANSFER_709 : ℤ := 1
def ZIMG_TRANSFER_601 : ℤ := 6
def ZIMG_TRANSFER_LINEAR : ℤ := 8
def ZIMG_TRANSFER_2020_10 : ℤ := 14
def ZIMG_TRANSFER_2020_12 : ℤ := 15

def ZIMG_PRIMARIES_709 : ℤ := 1
def ZIMG_PRIMARIES_170M : ℤ := 6
def ZIMG_PRIMARIES_240M : ℤ := 7
def ZIMG_PRIMARIES_2020 : ℤ := 9

def ZIMG_DITHER_NONE : ℤ := 0
def ZIMG_DITHER_ORDERED : ℤ := 1
def ZIMG_DITHER_RANDOM : ℤ := 2
def ZIMG_DITHER_ERROR_DIFFUSION : ℤ := 3

def ZIMG_RESIZE_POINT : ℤ := 0
def ZIMG_RESIZE_BILINEAR : ℤ := 1
def ZIMG_RESIZE_BICUBIC : ℤ := 2
def ZIMG_RESIZE_SPLINE16 : ℤ := 3
def ZIMG_RESIZE_SPLINE36 : ℤ := 4
def ZIMG_RESIZE_LANCZOS : ℤ := 5

/- Error codes.  Modelled from the spec: the numeric values come from the
missing public header; the spec fixes only that success is 0 and each error
class has its own nonzero code. -/

def ZIMG_ERROR_UNKNOWN : ℤ := -1
def ZIMG_ERROR_LOGIC : ℤ := 1
def ZIMG_ERROR_OUT_OF_MEMORY : ℤ := 2
def ZIMG_ERROR_ILLEGAL_ARGUMENT : ℤ := 3
def ZIMG_ERROR_UNSUPPORTED : ℤ := 4

/-- The typed failure hierarchy of Common/except.h: the five concrete
subclasses the adapter distinguishes, plus a catch-all constructor for a
plain ZimgException or any other subclass. -/
inductive ZimgException where
  | unknownError (msg : String)
  | logicError (msg : String)
  | outOfMemory (msg : String)
  | illegalArgument (msg : String)
  | unsupportedError (msg : String)
  | baseError (msg : String)
deriving DecidableEq, Repr

/-- e.what(). -/
def ZimgException.what : ZimgException → String
  | .unknownError m => m
  | .logicError m => m
  | .outOfMemory m => m
  | .illegalArgument m => m
  | .unsupportedError m => m
  | .baseError m => m

/-- The thread-local error state: g_last_error and g_last_error_msg. -/
@[ext] structure GState where
  g_last_error : ℤ
  g_last_error_msg : String
deriving DecidableEq, Repr

/-- strncpy into the 1024-byte g_last_error_msg buffer: at most 1023
characters are copied and the result is null-terminated. -/
@[irreducible] def strncpy_trunc (s : String) : String := s.take 1023

/-- record_exception_message. -/
def record_exception_message (e : ZimgException) (st : GState) : GState :=
  { st with g_last_error_msg := strncpy_trunc e.what }

/-- handle_exception: classify the failure to a status code, record the
message, store the code in g_last_error, and return the code. -/
def handle_exception (e : ZimgException) (st : GState) : ℤ × GState :=
  let code : ℤ :=
    match e with
    | .unknownError _ => ZIMG_ERROR_UNKNOWN
    | .logicError _ => ZIMG_ERROR_LOGIC
    | .outOfMemory _ => ZIMG_ERROR_OUT_OF_MEMORY
    | .illegalArgument _ => ZIMG_ERROR_ILLEGAL_ARGUMENT
    | .unsupportedError _ => ZIMG_ERROR_UNSUPPORTED
    | .baseError _ => ZIMG_ERROR_UNKNOWN
  let st1 := record_exception_message e st
  (code, { st1 with g_last_error := code })

/-- Internal pixel type enum (Common/pixel.h); zero-initialization yields
the first enumerator BYTE. -/
inductive PixelType where
  | BYTE | WORD | HALF | FLOAT
deriving DecidableEq, Repr

/-- Internal matrix coefficients enum (Colorspace/colorspace_param.h). -/
inductive MatrixCoefficients where
  | MATRIX_RGB | MATRIX_709 | MATRIX_601 | MATRIX_2020_NCL | MATRIX_2020_CL
deriving DecidableEq, Repr

/-- Internal transfer characteristics enum. -/
inductive TransferCharacteristics where
  | TRANSFER_709 | TRANSFER_LINEAR
deriving DecidableEq, Repr

/-- Internal color primaries enum. -/
inductive ColorPrimaries where
  | PRIMARIES_709 | PRIMARIES_SMPTE_C | PRIMARIES_2020
deriving DecidableEq, Repr

/-- Internal dither type enum (Depth/depth2.h). -/
inductive DitherType where
  | DITHER_NONE | DITHER_ORDERED | DITHER_RANDOM | DITHER_ERROR_DIFFUSION
deriving DecidableEq, Repr

/-- translate_pixel_type: static map lookup, throwing ZimgIllegalArgument
on a key outside the table. -/
def translate_pixel_type (pixel_type : ℤ) : Except ZimgException PixelType :=
  if pixel_type = ZIMG_PIXEL_BYTE then .ok .BYTE
  else if pixel_type = ZIMG_PIXEL_WORD then .ok .WORD
  else if pixel_type = ZIMG_PIXEL_HALF then .ok .HALF
  else if pixel_type = ZIMG_PIXEL_FLOAT then .ok .FLOAT
  else .error (.illegalArgument "invalid pixel type")

/-- translate_pixel_range. -/
def translate_pixel_range (range : ℤ) : Except ZimgException Bool :=
  if range = ZIMG_RANGE_LIMITED then .ok false
  else if range = ZIMG_RANGE_FULL then .ok true
  else .error (.illegalArgument "invalid pixel range")

/-- translate_matrix: note 470BG and 170M both map to MATRIX_601. -/
def translate_matrix (matrix : ℤ) : Except ZimgException MatrixCoefficients :=
  if matrix = ZIMG_MATRIX_RGB then .ok .MATRIX_RGB
  else if matrix = ZIMG_MATRIX_709 then .ok .MATRIX_709
  else if matrix = ZIMG_MATRIX_470BG then .ok .MATRIX_601
  else if matrix = ZIMG_MATRIX_170M then .ok .MATRIX_601
  else if matrix = ZIMG_MATRIX_2020_NCL then .ok .MATRIX_2020_NCL
  else if matrix = ZIMG_MATRIX_2020_CL then .ok .MATRIX_2020_CL
  else .error (.illegalArgument "invalid matrix coefficients")

/-- translate_transfer: 601, 2020_10 and 2020_12 all alias to TRANSFER_709. -/
def translate_transfer (transfer : ℤ) : Except ZimgException TransferCharacteristics :=
  if transfer = ZIMG_TRANSFER_709 then .ok .TRANSFER_709
  else if transfer = ZIMG_TRANSFER_601 then .ok .TRANSFER_709
  else if transfer = ZIMG_TRANSFER_2020_10 then .ok .TRANSFER_709
  else if transfer = ZIMG_TRANSFER_2020_12 then .ok .TRANSFER_709
  else if transfer = ZIMG_TRANSFER_LINEAR then .ok .TRANSFER_LINEAR
  else .error (.illegalArgument "invalid transfer characteristics")

/-- translate_primaries: 170M and 240M both alias to PRIMARIES_SMPTE_C. -/
def translate_primaries (primaries : ℤ) : Except ZimgException ColorPrimaries :=
  if primaries = ZIMG_PRIMARIES_709 then .ok .PRIMARIES_709
  else if primaries = ZIMG_PRIMARIES_170M then .ok .PRIMARIES_SMPTE_C
  else if primaries = ZIMG_PRIMARIES_240M then .ok .PRIMARIES_SMPTE_C
  else if primaries = ZIMG_PRIMARIES_2020 then .ok .PRIMARIES_2020
  else .error (.illegalArgument "invalid color primaries")

/-- translate_dither. -/
def translate_dither (dither : ℤ) : Except ZimgException DitherType :=
  if dither = ZIMG_DITHER_NONE then .ok .DITHER_NONE
  else if dither = ZIMG_DITHER_ORDERED then .ok .DITHER_ORDERED
  else if dither = ZIMG_DITHER_RANDOM then .ok .DITHER_RANDOM
  else if dither = ZIMG_DITHER_ERROR_DIFFUSION then .ok .DITHER_ERROR_DIFFUSION
  else .error (.illegalArgument "invalid dither")

/-- Success test on an Except. -/
def exOk {ε α : Type} : Except ε α → Bool
  | .ok _ => true
  | .error _ => false

/-! ## Filter flags and image buffers -/

/-- Internal ZimgFilterFlags (Common/zfilter.h). -/
structure ZimgFilterFlags where
  has_state : Bool
  same_row : Bool
  in_place : Bool
  entire_row : Bool
  color : Bool
deriving DecidableEq, Repr

/-- External zimg_filter_flags struct (version tag plus the five flags). -/
structure zimg_filter_flags where
  version : ℕ
  has_state : Bool
  same_row : Bool
  in_place : Bool
  entire_row : Bool
  color : Bool
deriving DecidableEq, Repr

/-- export_filter_flags: populate the external struct only when the
caller's version is at least 2; dst->version is clamped to the library's
API version. -/
def export_filter_flags (src : ZimgFilterFlags) (dst : zimg_filter_flags)
    (version : ℕ) : zimg_filter_flags :=
  if version ≥ 2 then
    { version := min version ZIMG_API_VERSION
      has_state := src.has_state
      same_row := src.same_row
      in_place := src.in_place
      entire_row := src.entire_row
      color := src.color }
  else
    dst

/-- External zimg_image_buffer: three (data, stride, mask) plane triples
behind a version tag.  Data pointers are modelled as integers. -/
structure zimg_image_buffer where
  version : ℕ
  data : ℤ × ℤ × ℤ
  stride : ℤ × ℤ × ℤ
  mask : ℤ × ℤ × ℤ
deriving DecidableEq, Repr

/-- Internal ZimgImageBuffer; value-initialization zeroes every plane. -/
structure ZimgImageBuffer where
  data : ℤ × ℤ × ℤ := (0, 0, 0)
  stride : ℤ × ℤ × ℤ := (0, 0, 0)
  mask : ℤ × ℤ × ℤ := (0, 0, 0)
deriving DecidableEq, Repr

/-- import_image_buffer: copy the plane arrays only when src.version is at
least 2; otherwise the zero-initialized internal buffer is returned. -/
def import_image_buffer (src : zimg_image_buffer) : ZimgImageBuffer :=
  if src.version ≥ 2 then
    { data := src.data, stride := src.stride, mask := src.mask }
  else
    {}

/-! ## Colorspace entry points -/

/-- External zimg_colorspace_params struct. -/
structure zimg_colorspace_params where
  version : ℕ
  width : ℕ
  height : ℕ
  matrix_in : ℤ
  transfer_in : ℤ
  primaries_in : ℤ
  matrix_out : ℤ
  transfer_out : ℤ
  primaries_out : ℤ
  pixel_type : ℤ
  depth : ℕ
  range : ℤ
deriving DecidableEq, Repr

/-- zimg2_colorspace_params_default: populate the defaults only when
version is at least 2. -/
def zimg2_colorspace_params_default (p : zimg_colorspace_params)
    (version : ℕ) : zimg_colorspace_params :=
  if version ≥ 2 then
    { version := version
      width := 0
      height := 0
      matrix_in := 2
      transfer_in := 2
      primaries_in := 2
      matrix_out := 2
      transfer_out := 2
      primaries_out := 2
      pixel_type := -1
      depth := 0
      range := 0 }
  else
    p

/-- Internal PixelFormat (Common/pixel.h); value-initialization zeroes all
fields, so type is the zero enumerator BYTE, depth 0, and both booleans
false. -/
structure PixelFormat where
  type : PixelType := .BYTE
  depth : ℕ := 0
  fullrange : Bool := false
  chroma : Bool := false
deriving DecidableEq, Repr

/-- External zimg_depth_params struct. -/
structure zimg_depth_params where
  version : ℕ
  width : ℕ
  height : ℕ
  dither_type : ℤ
  chroma : ℤ
  pixel_in : ℤ
  depth_in : ℕ
  range_in : ℤ
  pixel_out : ℤ
  depth_out : ℕ
  range_out : ℤ
deriving DecidableEq, Repr

/-- zimg2_depth_params_default. -/
def zimg2_depth_params_default (p : zimg_depth_params) (version : ℕ) :
    zimg_depth_params :=
  if version ≥ 2 then
    { version := version
      width := 0
      height := 0
      dither_type := ZIMG_DITHER_NONE
      chroma := 0
      pixel_in := -1
      depth_in := 0
      range_in := ZIMG_RANGE_LIMITED
      pixel_out := -1
      depth_out := 0
      range_out := ZIMG_RANGE_LIMITED }
  else
    p

/-- The arguments handed to the Depth2 constructor. -/
structure Depth2Args where
  dither : DitherType
  width : ℕ
  pixel_in : PixelFormat
  pixel_out : PixelFormat
deriving DecidableEq, Repr

/-- The try-block of zimg2_depth_create.  Note that BOTH populate guards
test pixel_in.type, copying the source exactly: the second `if` at lines
463-466 of zimg2.cpp tests pixel_in.type although it populates
pixel_out. -/
def depth_create_body (p : zimg_depth_params) :
    Except ZimgException Depth2Args := do
  if p.version ≥ 2 then do
    let width := p.width
    let dither ← translate_dither p.dither_type
    let t_in ← translate_pixel_type p.pixel_in
    let pixel_in0 : PixelFormat := { type := t_in, chroma := p.chroma ≠ 0 }
    let pixel_in ←
      if t_in = PixelType.BYTE ∨ t_in = PixelType.WORD then do
        let r ← translate_pixel_range p.range_in
        pure { pixel_in0 with depth := p.depth_in, fullrange := r }
      else
        pure pixel_in0
    let t_out ← translate_pixel_type p.pixel_out
    let pixel_out0 : PixelFormat := { type := t_out, chroma := p.chroma ≠ 0 }
    let pixel_out ←
      if t_in = PixelType.BYTE ∨ t_in = PixelType.WORD then do
        let r ← translate_pixel_range p.range_out
        pure { pixel_out0 with depth := p.depth_out, fullrange := r }
      else
        pure pixel_out0
    pure { dither := dither, width := width,
           pixel_in := pixel_in, pixel_out := pixel_out }
  else
    pure { dither := .DITHER_NONE, width := 0,
           pixel_in := {}, pixel_out := {} }

/-- zimg2_depth_create. -/
def zimg2_depth_create (p : zimg_depth_params) (st : GState) :
    Option Depth2Args × GState :=
  match depth_create_body p with
  | .ok args => (some args, st)
  | .error e => (none, (handle_exception e st).2)

/-! ## Resize entry points -/

/-- The resize filter objects translate_resize_filter allocates
(Resize/filter.h). -/
inductive ResizeFilter where
  | PointFilter
  | BilinearFilter
  | BicubicFilter (a b : Fl)
  | Spline16Filter
  | Spline36Filter
  | LanczosFilter (lobes : ℤ)
deriving DecidableEq, Repr

/-- translate_resize_filter: NaN shape parameters take their documented
defaults (bicubic 1/3 and 1/3; Lanczos lobe count 3, otherwise floored and
cast to int); an unknown filter kind raises ZimgIllegalArgument. -/
def translate_resize_filter (filter_type : ℤ) (param_a param_b : Fl) :
    Except ZimgException ResizeFilter :=
  if filter_type = ZIMG_RESIZE_POINT then .ok .PointFilter
  else if filter_type = ZIMG_RESIZE_BILINEAR then .ok .BilinearFilter
  else if filter_type = ZIMG_RESIZE_BICUBIC then
    let a := if param_a.isnan then Fl.fin (1 / 3) else param_a
    let b := if param_b.isnan then Fl.fin (1 / 3) else param_b
    .ok (.BicubicFilter a b)
  else if filter_type = ZIMG_RESIZE_SPLINE16 then .ok .Spline16Filter
  else if filter_type = ZIMG_RESIZE_SPLINE36 then .ok .Spline36Filter
  else if filter_type = ZIMG_RESIZE_LANCZOS then
    let a := if param_a.isnan then Fl.fin 3 else param_a.floor
    .ok (.LanczosFilter a.cint)
  else .error (.illegalArgument "invalid resize filter")

/-- External zimg_resize_params struct. -/
structure zimg_resize_params where
  version : ℕ
  src_width : ℕ
  src_height : ℕ
  dst_width : ℕ
  dst_height : ℕ
  pixel_type : ℤ
  shift_w : Fl
  shift_h : Fl
  subwidth : Fl
  subheight : Fl
  filter_type : ℤ
  filter_param_a : Fl
  filter_param_b : Fl
deriving DecidableEq, Repr

/-- Field names of zimg_resize_params, for the write log of the default
populator. -/
inductive RzField where
  | version | src_width | src_height | dst_width | dst_height
  | pixel_type | shift_w | shift_h | subwidth | subheight
  | filter_type | filter_param_a | filter_param_b
deriving DecidableEq, Repr

/-- A value written to a zimg_resize_params field. -/
inductive FVal where
  | nv (n : ℕ)
  | iv (n : ℤ)
  | fv (x : Fl)
deriving DecidableEq, Repr

/-- One store `p.field = value`. -/
def rzStore (p : zimg_resize_params) : RzField × FVal → zimg_resize_params
  | (.version, .nv n) => { p with version := n }
  | (.src_width, .nv n) => { p with src_width := n }
  | (.src_height, .nv n) => { p with src_height := n }
  | (.dst_width, .nv n) => { p with dst_width := n }
  | (.dst_height, .nv n) => { p with dst_height := n }
  | (.pixel_type, .iv n) => { p with pixel_type := n }
  | (.shift_w, .fv x) => { p with shift_w := x }
  | (.shift_h, .fv x) => { p with shift_h := x }
  | (.subwidth, .fv x) => { p with subwidth := x }
  | (.subheight, .fv x) => { p with subheight := x }
  | (.filter_type, .iv n) => { p with filter_type := n }
  | (.filter_param_a, .fv x) => { p with filter_param_a := x }
  | (.filter_param_b, .fv x) => { p with filter_param_b := x }
  | (_, _) => p

/-- The assignments zimg2_resize_params_default performs under the version
guard, in source order.  Lines 494-495 of zimg2.cpp assign NAN to
subheight twice; no assignment targets subwidth. -/
def rz_default_writes (version : ℕ) : List (RzField × FVal) :=
  [ (.version, .nv version),
    (.src_width, .nv 0),
    (.src_height, .nv 0),
    (.dst_width, .nv 0),
    (.dst_height, .nv 0),
    (.pixel_type, .iv (-1)),
    (.shift_w, .fv (.fin 0)),
    (.shift_h, .fv (.fin 0)),
    (.subheight, .fv .nan),
    (.subheight, .fv .nan),
    (.filter_type, .iv ZIMG_RESIZE_POINT),
    (.filter_param_a, .fv .nan),
    (.filter_param_b, .fv .nan) ]

/-- zimg2_resize_params_default, returning the updated struct together
with the ordered log of field stores it performed. -/
def zimg2_resize_params_default (p : zimg_resize_params) (version : ℕ) :
    zimg_resize_params × List (RzField × FVal) :=
  if version ≥ 2 then
    ((rz_default_writes version).foldl rzStore p, rz_default_writes version)
  else
    (p, [])

/-- The arguments handed to the Resize2 constructor.  The filter argument
records the pointee of the dereferenced std::unique_ptr local: none means
the unique_ptr still holds its default-constructed null pointer at the
point of the dereference. -/
structure Resize2Args where
  filter : Option ResizeFilter
  pixel_type : PixelType
  src_width : ℕ
  src_height : ℕ
  dst_width : ℕ
  dst_height : ℕ
  shift_w : Fl
  shift_h : Fl
  subwidth : Fl
  subheight : Fl
deriving DecidableEq, Repr

/-- The try-block of zimg2_resize_create: the std::unique_ptr local
`filter` is default-constructed and never reset, and params->filter_type,
filter_param_a and filter_param_b are never read, so `*filter` dereferences
a null pointer when the Resize2 constructor call is reached. -/
def resize_create_body (p : zimg_resize_params) :
    Except ZimgException Resize2Args := do
  let filter : Option ResizeFilter := none
  let (pixel_type, src_width, src_height, dst_width, dst_height,
       shift_w, shift_h, subwidth, subheight) ←
    if p.version ≥ 2 then do
      let pt ← translate_pixel_type p.pixel_type
      let subwidth :=
        if p.subwidth.isnan then Fl.fin p.src_width else p.subwidth
      let subheight :=
        if p.subheight.isnan then Fl.fin p.src_height else p.subheight
      pure (pt, p.src_width, p.src_height, p.dst_width, p.dst_height,
            p.shift_w, p.shift_h, subwidth, subheight)
    else
      pure (PixelType.BYTE, 0, 0, 0, 0, Fl.fin 0, Fl.fin 0, Fl.nan, Fl.nan)
  pure { filter := filter, pixel_type := pixel_type,
         src_width := src_width, src_height := src_height,
         dst_width := dst_width, dst_height := dst_height,
         shift_w := shift_w, shift_h := shift_h,
         subwidth := subwidth, subheight := subheight }

/-- zimg2_resize_create. -/
def zimg2_resize_create (p : zimg_resize_params) (st : GState) :
    Option Resize2Args × GState :=
  match resize_create_body p with
  | .ok args => (some args, st)
  | .error e => (none, (handle_exception e st).2)

/-! ## Point-kernel resampling, modelled from the spec -/

/-- Modelled from the spec: the resize/copy implementation
(graph/copy_filter.h and the Resize family's kernel application) is not
under src; section 4.2 gives the source-coordinate mapping
s = (d + 0.5) * (src_extent / dst_extent) + shift - 0.5. -/
def srcCoord (srcExtent dstExtent shift : ℚ) (d : ℕ) : ℚ :=
  ((d : ℚ) + 1 / 2) * (srcExtent / dstExtent) + shift - 1 / 2

/-- Modelled from the spec: the point kernel reads the nearest source
sample to s, with the support window clamped to the image bounds (edge
replication). -/
def pointTap (srcExtent dstExtent shift : ℚ) (srcLen : ℕ) (d : ℕ) : ℕ :=
  (max 0 (min (Int.floor (srcCoord srcExtent dstExtent shift d + 1 / 2))
              ((srcLen : ℤ) - 1))).toNat

/-- Modelled from the spec: separable application of the point kernel
along height then width; the image is a pixel-valued function of
(row, column) so one definition covers all four pixel value types. -/
def pointResample2D {α : Type} (img : ℕ → ℕ → α)
    (src_width src_height dst_width dst_height : ℕ)
    (shift_w shift_h : ℚ) : ℕ → ℕ → α :=
  fun y x =>
    img (pointTap (src_height : ℚ) (dst_height : ℚ) shift_h src_height y)
        (pointTap (src_width : ℚ) (dst_width : ℚ) shift_w src_width x)

/-! ## Helper lemmas -/

theorem translate_matrix_error_msg (m : ℤ) (e : ZimgException)
    (h : translate_matrix m = .error e) :
    e = .illegalArgument "invalid matrix coefficients" := by
  unfold translate_matrix at h
  repeat' split at h
  all_goals simp_all

theorem translate_transfer_error_msg (t : ℤ) (e : ZimgException)
    (h : translate_transfer t = .error e) :
    e = .illegalArgument "invalid transfer characteristics" := by
  unfold translate_transfer at h
  repeat' split at h
  all_goals simp_all

theorem translate_primaries_error_msg (pr : ℤ) (e : ZimgException)
    (h : translate_primaries pr = .error e) :
    e = .illegalArgument "invalid color primaries" := by
  unfold translate_primaries at h
  repeat' split at h
  all_goals simp_all

theorem translate_matrix_not_ok (m : ℤ)
    (h : exOk (translate_matrix m) = false) :
    translate_matrix m = .error (.illegalArgument "invalid matrix coefficients") := by
  cases heq : translate_matrix m with
  | ok x => rw [heq] at h; simp [exOk] at h
  | error e => exact congrArg Except.error (translate_matrix_error_msg m e heq)

theorem translate_transfer_not_ok (t : ℤ)
    (h : exOk (translate_transfer t) = false) :
    translate_transfer t = .error (.illegalArgument "invalid transfer characteristics") := by
  cases heq : translate_transfer t with
  | ok x => rw [heq] at h; simp [exOk] at h
  | error e => exact congrArg Except.error (translate_transfer_error_msg t e heq)

theorem translate_primaries_not_ok (pr : ℤ)
    (h : exOk (translate_primaries pr) = false) :
    translate_primaries pr = .error (.illegalArgument "invalid color primaries") := by
  cases heq : translate_primaries pr with
  | ok x => rw [heq] at h; simp [exOk] at h
  | error e => exact congrArg Except.error (translate_primaries_error_msg pr e heq)

theorem exceptBind_ok {ε α β : Type} (a : α) (f : α → Except ε β) :
    (Except.ok a : Except ε α) >>= f = f a := rfl

theorem exceptPure {ε α : Type} (a : α) : (pure a : Except ε α) = .ok a := rfl

theorem translate_resize_filter_error_msg (ft : ℤ) (a b : Fl) (e : ZimgException)
    (h : translate_resize_filter ft a b = .error e) :
    e = .illegalArgument "invalid resize filter" := by
  unfold translate_resize_filter at h
  repeat' split at h
  all_goals simp_all

/-! ## Claim theorems -/

/-- C8: the enum translations alias legacy values (transfer 601, 2020_10
and 2020_12 to the 709 curve; matrix 470BG and 170M to the 601 matrix;
primaries 170M and 240M to SMPTE-C), and every value outside each
recognized set fails with the illegal-argument class. -/
theorem translate_aliasing :
    (translate_transfer ZIMG_TRANSFER_601 = .ok .TRANSFER_709 ∧
     translate_transfer ZIMG_TRANSFER_2020_10 = .ok .TRANSFER_709 ∧
     translate_transfer ZIMG_TRANSFER_2020_12 = .ok .TRANSFER_709 ∧
     translate_transfer ZIMG_TRANSFER_709 = .ok .TRANSFER_709) ∧
    (translate_matrix ZIMG_MATRIX_470BG = .ok .MATRIX_601 ∧
     translate_matrix ZIMG_MATRIX_170M = .ok .MATRIX_601) ∧
    (translate_primaries ZIMG_PRIMARIES_170M = .ok .PRIMARIES_SMPTE_C ∧
     translate_primaries ZIMG_PRIMARIES_240M = .ok .PRIMARIES_SMPTE_C) ∧
    (∀ m, exOk (translate_matrix m) = false →
      translate_matrix m = .error (.illegalArgument "invalid matrix coefficients")) ∧
    (∀ t, exOk (translate_transfer t) = false →
      translate_transfer t = .error (.illegalArgument "invalid transfer characteristics")) ∧
    (∀ pr, exOk (translate_primaries pr) = false →
      translate_primaries pr = .error (.illegalArgument "invalid color primaries")) := by
  refine ⟨⟨rfl, rfl, rfl, rfl⟩, ⟨rfl, rfl⟩, ⟨rfl, rfl⟩, ?_, ?_, ?_⟩
  · exact translate_matrix_not_ok
  · exact translate_transfer_not_ok
  · exact translate_primaries_not_ok

theorem Fl.cint_intCast (n : ℤ) : Fl.cint (.fin (n : ℚ)) = n := by
  show (if ((n : ℚ)) < 0 then -(Int.floor (-(n : ℚ))) else Int.floor ((n : ℚ))) = n
  split
  · rw [← Int.cast_neg, Int.floor_intCast, neg_neg]
  · exact Int.floor_intCast n

/-- C6: translate_resize_filter applies the NaN-sentinel defaults: bicubic
parameters default to 1/3 each, the Lanczos lobe count defaults to 3 and a
non-NaN first parameter is floored to an integer with the second parameter
unused, and an unrecognized filter kind fails with the illegal-argument
class. -/
theorem translate_resize_filter_defaults :
    (∀ a b, translate_resize_filter ZIMG_RESIZE_BICUBIC a b =
      .ok (.BicubicFilter (if a.isnan then Fl.fin (1 / 3) else a)
                          (if b.isnan then Fl.fin (1 / 3) else b))) ∧
    (∀ b, translate_resize_filter ZIMG_RESIZE_LANCZOS Fl.nan b =
      .ok (.LanczosFilter 3)) ∧
    (∀ q b, translate_resize_filter ZIMG_RESIZE_LANCZOS (Fl.fin q) b =
      .ok (.LanczosFilter (Int.floor q))) ∧
    (∀ ft a b, exOk (translate_resize_filter ft a b) = false →
      translate_resize_filter ft a b =
        .error (.illegalArgument "invalid resize filter")) := by
  refine ⟨fun a b => rfl, fun b => rfl, ?_, ?_⟩
  · intro q b
    have h1 : translate_resize_filter ZIMG_RESIZE_LANCZOS (Fl.fin q) b =
        .ok (.LanczosFilter (Fl.cint (.fin ((Int.floor q : ℤ) : ℚ)))) := rfl
    rw [h1, Fl.cint_intCast]
  · intro ft a b h
    cases heq : translate_resize_filter ft a b with
    | ok x => rw [heq] at h; simp [exOk] at h
    | error e =>
        exact congrArg Except.error (translate_resize_filter_error_msg ft a b e heq)

/-- C6 witness: the failure clause applied at the unrecognized filter kind
17, with the hypothesis discharged by evaluation. -/
theorem translate_resize_filter_defaults_witness :
    translate_resize_filter 17 Fl.nan Fl.nan =
      .error (.illegalArgument "invalid resize filter") :=
  translate_resize_filter_defaults.2.2.2 17 Fl.nan Fl.nan (by decide)

/-- C3: zimg2_resize_params_default, for every version at least 2, assigns
NAN to the subheight field twice and never assigns subwidth, which is left
holding its previous value. -/
theorem resize_params_default_subheight_twice (p : zimg_resize_params)
    (version : ℕ) (h : 2 ≤ version) :
    ((zimg2_resize_params_default p version).2.countP
      (fun w => decide (w.1 = RzField.subheight))) = 2 ∧
    (∀ w, w ∈ (zimg2_resize_params_default p version).2 →
      w.1 = RzField.subheight → w.2 = FVal.fv Fl.nan) ∧
    ((zimg2_resize_params_default p version).2.countP
      (fun w => decide (w.1 = RzField.subwidth))) = 0 ∧
    (zimg2_resize_params_default p version).1.subwidth = p.subwidth := by
  have hv : version ≥ 2 := h
  refine ⟨?_, ?_, ?_, ?_⟩
  · simp [zimg2_resize_params_default, hv, rz_default_writes]
  · intro w hw hsub
    simp only [zimg2_resize_params_default, if_pos hv, rz_default_writes] at hw
    fin_cases hw <;> simp_all
  · simp [zimg2_resize_params_default, hv, rz_default_writes]
  · simp [zimg2_resize_params_default, hv, rz_default_writes, rzStore]

/-- C3 witness: the theorem applied at version 2 and a concrete parameter
struct whose subwidth is 7/2, which the default populator leaves in
place. -/
theorem resize_params_default_subheight_twice_witness :
    ((zimg2_resize_params_default
        ⟨2, 0, 0, 0, 0, 0, .fin 0, .fin 0, .fin (7 / 2), .fin 0, 0, .fin 0, .fin 0⟩
        2).1.subwidth = Fl.fin (7 / 2)) :=
  (resize_params_default_subheight_twice
    ⟨2, 0, 0, 0, 0, 0, .fin 0, .fin 0, .fin (7 / 2), .fin 0, 0, .fin 0, .fin 0⟩
    2 (by decide)).2.2.2

/-- C9: export_filter_flags, import_image_buffer and the three
params_default functions write or read their version-2 fields only under a
version check: when the version is below 2 the destination struct is left
unchanged, an imported buffer is all zero defaults, and the default
populators write nothing. -/
theorem version_guards (version : ℕ) (h : version < 2) :
    (∀ src dst, export_filter_flags src dst version = dst) ∧
    (∀ buf : zimg_image_buffer, buf.version < 2 →
      import_image_buffer buf = ({} : ZimgImageBuffer)) ∧
    (∀ p, zimg2_colorspace_params_default p version = p) ∧
    (∀ p, zimg2_depth_params_default p version = p) ∧
    (∀ p, (zimg2_resize_params_default p version).1 = p ∧
      (zimg2_resize_params_default p version).2 = []) := by
  have hv : ¬ version ≥ 2 := Nat.not_le.mpr h
  refine ⟨?_, ?_, ?_, ?_, ?_⟩
  · intro src dst; simp [export_filter_flags, hv]
  · intro buf hbuf; simp [import_image_buffer, Nat.not_le.mpr hbuf]
  · intro p; simp [zimg2_colorspace_params_default, hv]
  · intro p; simp [zimg2_depth_params_default, hv]
  · intro p; simp [zimg2_resize_params_default, hv]

/-- C9 witness: the theorem applied at version 1 and concrete structs with
recognizable nonzero field values, all returned untouched. -/
theorem version_guards_witness :
    export_filter_flags ⟨true, true, true, true, true⟩
      ⟨9, false, true, false, true, false⟩ 1 = ⟨9, false, true, false, true, false⟩ ∧
    import_image_buffer ⟨1, (64, 128, 192), (256, 256, 256), (7, 7, 7)⟩ =
      ({} : ZimgImageBuffer) ∧
    zimg2_colorspace_params_default ⟨3, 10, 20, 1, 1, 1, 1, 1, 1, 3, 8, 1⟩ 1 =
      ⟨3, 10, 20, 1, 1, 1, 1, 1, 1, 3, 8, 1⟩ ∧
    zimg2_depth_params_default ⟨3, 10, 20, 1, 1, 0, 8, 0, 1, 16, 0⟩ 1 =
      ⟨3, 10, 20, 1, 1, 0, 8, 0, 1, 16, 0⟩ ∧
    (zimg2_resize_params_default
      ⟨3, 10, 20, 30, 40, 3, .fin 1, .fin 1, .fin 1, .fin 1, 5, .fin 1, .fin 1⟩ 1).1 =
      ⟨3, 10, 20, 30, 40, 3, .fin 1, .fin 1, .fin 1, .fin 1, 5, .fin 1, .fin 1⟩ := by
  have h := version_guards 1 (by decide)
  exact ⟨h.1 _ _, h.2.1 _ (by decide), h.2.2.1 _, h.2.2.2.1 _, (h.2.2.2.2 _).1⟩

/-- C8 witness: the unrecognized-value clauses applied at the concrete
value 99, which is in none of the three tables. -/
theorem translate_aliasing_witness :
    translate_matrix 99 = .error (.illegalArgument "invalid matrix coefficients") ∧
    translate_transfer 99 = .error (.illegalArgument "invalid transfer characteristics") ∧
    translate_primaries 99 = .error (.illegalArgument "invalid color primaries") :=
  ⟨translate_aliasing.2.2.2.1 99 (by decide),
   translate_aliasing.2.2.2.2.1 99 (by decide),
   translate_aliasing.2.2.2.2.2 99 (by decide)⟩

theorem pointTap_copy (len d : ℕ) (hd : d < len) :
    pointTap (len : ℚ) (len : ℚ) 0 len d = d := by
  have hlen : 0 < len := lt_of_le_of_lt (Nat.zero_le d) hd
  have hne : ((len : ℚ)) ≠ 0 := Nat.cast_ne_zero.mpr hlen.ne'
  unfold pointTap srcCoord
  rw [div_self hne]
  have hs : ((d : ℚ) + 1 / 2) * 1 + 0 - 1 / 2 + 1 / 2 = (d : ℤ) + (1 / 2 : ℚ) := by
    push_cast
    ring
  rw [hs, Int.floor_int_add]
  have hhalf : Int.floor ((1 : ℚ) / 2) = 0 := by
    rw [Int.floor_eq_zero_iff]
    constructor <;> norm_num
  rw [hhalf, add_zero]
  have hmin : min (d : ℤ) ((len : ℤ) - 1) = (d : ℤ) := by
    apply min_eq_left
    omega
  rw [hmin]
  have hmax : max 0 (d : ℤ) = (d : ℤ) := max_eq_right (Int.ofNat_nonneg d)
  rw [hmax]
  exact Int.toNat_natCast d

/-- C10: applying the point kernel with src_width = dst_width = 591,
src_height = dst_height = 333 and zero shift reproduces the input image
pixel-for-pixel; the pixel value type is arbitrary, covering byte, word,
half and float samples alike. -/
theorem point_copy_identity {α : Type} (img : ℕ → ℕ → α) (y x : ℕ)
    (hy : y < 333) (hx : x < 591) :
    pointResample2D img 591 333 591 333 0 0 y x = img y x := by
  unfold pointResample2D
  rw [pointTap_copy 333 y hy, pointTap_copy 591 x hx]

/-- C10 witness: the identity at a concrete coordinate of a concrete
591-by-333 ramp image. -/
theorem point_copy_identity_witness :
    pointResample2D (fun y x => 1000 * y + x) 591 333 591 333 0 0 57 123 =
      57123 :=
  point_copy_identity (fun y x => 1000 * y + x) 57 123 (by decide) (by decide)

theorem resize_create_body_filter_none (p : zimg_resize_params)
    (args : Resize2Args) (h : resize_create_body p = .ok args) :
    args.filter = none := by
  unfold resize_create_body at h
  by_cases hv : p.version ≥ 2
  · cases ht : translate_pixel_type p.pixel_type with
    | ok pt =>
        simp only [hv, if_true, ht] at h
        simp only [Except.bind, bind, pure, Except.pure] at h
        cases h
        rfl
    | error e =>
        simp only [hv, if_true, ht] at h
        simp only [Except.bind, bind, pure, Except.pure] at h
        cases h
  · simp only [hv, if_false] at h
    simp only [Except.bind, bind, pure, Except.pure] at h
    cases h
    rfl

/-- C2: in zimg2_resize_create the local resize-filter unique_ptr is
default-constructed null and is still null when it is dereferenced for the
Resize2 constructor, and the filter_type, filter_param_a and
filter_param_b fields of the parameter struct are never read on this
path. -/
theorem resize_create_null_filter (p : zimg_resize_params) (st : GState) :
    (∀ r st2, zimg2_resize_create p st = (some r, st2) → r.filter = none) ∧
    (∀ ft a b,
      zimg2_resize_create
        { p with filter_type := ft, filter_param_a := a,
                 filter_param_b := b } st =
      zimg2_resize_create p st) := by
  constructor
  · intro r st2 hr
    unfold zimg2_resize_create at hr
    cases hbody : resize_create_body p with
    | ok args =>
        rw [hbody] at hr
        have hargs : args = r := by
          have := congrArg Prod.fst hr
          simpa using this
        rw [← hargs]
        exact resize_create_body_filter_none p args hbody
    | error e =>
        rw [hbody] at hr
        simp at hr
  · intro ft a b
    rfl

/-- C2 witness: a successful construction at a concrete parameter struct,
whose recorded dereference target is the null filter pointer. -/
theorem resize_create_null_filter_witness :
    ∃ r : Resize2Args,
      (zimg2_resize_create
        ⟨2, 10, 10, 20, 20, ZIMG_PIXEL_FLOAT, .fin 0, .fin 0, .nan, .nan,
         ZIMG_RESIZE_BICUBIC, .nan, .nan⟩ ⟨0, ""⟩).1 = some r ∧
      r.filter = none := by
  refine ⟨⟨none, .FLOAT, 10, 10, 20, 20, .fin 0, .fin 0, .fin 10, .fin 10⟩,
    by decide, ?_⟩
  exact (resize_create_null_filter
    ⟨2, 10, 10, 20, 20, ZIMG_PIXEL_FLOAT, .fin 0, .fin 0, .nan, .nan,
     ZIMG_RESIZE_BICUBIC, .nan, .nan⟩ ⟨0, ""⟩).1
    ⟨none, .FLOAT, 10, 10, 20, 20, .fin 0, .fin 0, .fin 10, .fin 10⟩
    ⟨0, ""⟩ (by decide)

/-- C5: in zimg2_depth_create both populate guards test the INPUT pixel
type: when the input type is half or float the output format keeps its
zero-default depth and range whatever the output type is, and when the
input type is byte or word both formats are populated from the parameter
struct. -/
theorem depth_create_populates_by_input_type
    (p : zimg_depth_params) (st : GState) (d : DitherType)
    (t_in t_out : PixelType)
    (hv : 2 ≤ p.version)
    (hd : translate_dither p.dither_type = .ok d)
    (hin : translate_pixel_type p.pixel_in = .ok t_in)
    (hout : translate_pixel_type p.pixel_out = .ok t_out) :
    ((t_in = PixelType.HALF ∨ t_in = PixelType.FLOAT) →
      zimg2_depth_create p st =
        (some ⟨d, p.width,
               ⟨t_in, 0, false, decide (p.chroma ≠ 0)⟩,
               ⟨t_out, 0, false, decide (p.chroma ≠ 0)⟩⟩, st)) ∧
    (∀ r_in r_out, (t_in = PixelType.BYTE ∨ t_in = PixelType.WORD) →
      translate_pixel_range p.range_in = .ok r_in →
      translate_pixel_range p.range_out = .ok r_out →
      zimg2_depth_create p st =
        (some ⟨d, p.width,
               ⟨t_in, p.depth_in, r_in, decide (p.chroma ≠ 0)⟩,
               ⟨t_out, p.depth_out, r_out, decide (p.chroma ≠ 0)⟩⟩, st)) := by
  have hv' : p.version ≥ 2 := hv
  constructor
  · intro hti
    have hno : ¬(t_in = PixelType.BYTE ∨ t_in = PixelType.WORD) := by
      rcases hti with rfl | rfl <;> simp
    have hbody : depth_create_body p =
        .ok ⟨d, p.width,
             ⟨t_in, 0, false, decide (p.chroma ≠ 0)⟩,
             ⟨t_out, 0, false, decide (p.chroma ≠ 0)⟩⟩ := by
      unfold depth_create_body
      simp only [hv', if_true, hd, hin, hout, exceptBind_ok, exceptPure, hno,
        if_false]
    unfold zimg2_depth_create
    rw [hbody]
  · intro r_in r_out hti hr1 hr2
    have hbody : depth_create_body p =
        .ok ⟨d, p.width,
             ⟨t_in, p.depth_in, r_in, decide (p.chroma ≠ 0)⟩,
             ⟨t_out, p.depth_out, r_out, decide (p.chroma ≠ 0)⟩⟩ := by
      unfold depth_create_body
      simp only [hv', if_true, hd, hin, hout, hti, hr1, hr2, exceptBind_ok,
        exceptPure, if_false]
    unfold zimg2_depth_create
    rw [hbody]

/-- C5 witness: a HALF-input, BYTE-output request, where the output format
keeps depth 0 and limited-range false although the output type is an
integer type. -/
theorem depth_create_populates_by_input_type_witness :
    zimg2_depth_create
      ⟨2, 64, 32, ZIMG_DITHER_NONE, 0, ZIMG_PIXEL_HALF, 0, ZIMG_RANGE_FULL,
       ZIMG_PIXEL_BYTE, 8, ZIMG_RANGE_FULL⟩ ⟨0, ""⟩ =
      (some ⟨.DITHER_NONE, 64,
             ⟨.HALF, 0, false, false⟩, ⟨.BYTE, 0, false, false⟩⟩, ⟨0, ""⟩) := by
  have h := (depth_create_populates_by_input_type
    ⟨2, 64, 32, ZIMG_DITHER_NONE, 0, ZIMG_PIXEL_HALF, 0, ZIMG_RANGE_FULL,
     ZIMG_PIXEL_BYTE, 8, ZIMG_RANGE_FULL⟩ ⟨0, ""⟩ .DITHER_NONE .HALF .BYTE
    (by decide) rfl rfl rfl).1 (Or.inl rfl)
  simpa using h

end Zimg2
